import Mathlib

/-!
Shallow embedding of the `ci` deployment scripts and verification of the
spec claims about them.

The repository consists of five Python files:
  * `ci/bin/provision.py`   — stack lifecycle helpers, pollers, bucket
    provisioner, site prober and the top-level provision sequence;
  * `ci/bin/status.py`      — read-only status check;
  * `ci/bin/terminate.py`   — interactive teardown;
  * `ci/lambda/lambdaupdate.py` — the deploy pipeline-stage handler;
  * `ci/lambda/lambdabuild.py`  — the build pipeline-stage handler.

Every function below is translated from the corresponding Python function.
External AWS calls are modelled by an explicit environment (what the service
would answer) plus a trace of `Effect`s (which calls were issued), and
Python exceptions by explicit result constructors.  Time advances only at
the scripts' `time.sleep` calls, 15 seconds per poll iteration, matching
the fixed sleep intervals in the source.
-/

namespace CiDemo

/-- Outcome of a single raw AWS API call as seen by the caller:
either it succeeds, or `botocore` raises a `ClientError` carrying an error
message. -/
inductive ApiResult where
  | ok
  | clientError (message : String)
deriving DecidableEq, Repr

/-- One externally visible call issued by a script.  The constructor records
the AWS/HTTP operation and its main argument. -/
inductive Effect where
  | describeStacks (stack : String)
  | createStack (stack : String)
  | updateStack (stack : String)
  | deleteStack (stack : String)
  | waitDeleteComplete (stack : String)
  | headBucket (bucket : String)
  | createBucket (bucket : String)
  | getBucketVersioning (bucket : String)
  | putBucketVersioning (bucket : String)
  | deleteBucket (bucket : String)
  | httpGet (url : String)
  | putJobSuccess (jobId : String)
  | putJobFailure (jobId : String)
  | putJobContinuation (jobId : String)
deriving DecidableEq, Repr

/-- Read-only calls: `describe_stacks`, `head_bucket`,
`get_bucket_versioning` and the HTTP GET issued by `test_web_site`. -/
def Effect.isReadOnly : Effect → Bool
  | .describeStacks _ => true
  | .headBucket _ => true
  | .getBucketVersioning _ => true
  | .httpGet _ => true
  | _ => false

/-- The probe issued by `test_web_site` (an HTTP GET). -/
def Effect.isHttpGet : Effect → Bool
  | .httpGet _ => true
  | _ => false

/-- A `cf.delete_stack` call. -/
def Effect.isStackDelete : Effect → Bool
  | .deleteStack _ => true
  | _ => false

/-- An S3 `delete_bucket` call. -/
def Effect.isDeleteBucket : Effect → Bool
  | .deleteBucket _ => true
  | _ => false

/-- Calls that create or mutate a bucket: `create_bucket`,
`put_bucket_versioning`, `delete_bucket`. -/
def Effect.isBucketWrite : Effect → Bool
  | .createBucket _ => true
  | .putBucketVersioning _ => true
  | .deleteBucket _ => true
  | _ => false

/-- A report sent to the pipeline job API: `put_job_success_result` (with or
without a continuation token) or `put_job_failure_result`. -/
def Effect.isJobReport : Effect → Bool
  | .putJobSuccess _ => true
  | .putJobFailure _ => true
  | .putJobContinuation _ => true
  | _ => false

/-- The exact `ClientError` message that `update_stack` treats as the
benign no-op outcome (`provision.py` line 49, `lambdaupdate.py` line 125). -/
def noUpdatesMsg : String := "No updates are to be performed."

/-- Result of the `update_stack` wrapper: `started` models `return True`,
`noUpdates` models `return False`, and `raisedErr` models the wrapper
re-raising `Exception('Error updating CloudFormation stack ...', e)`. -/
inductive UpdateResult where
  | started
  | noUpdates
  | raisedErr (msg : String)
deriving DecidableEq, Repr

/-- `update_stack` from `provision.py` lines 24-52 (the copy in
`lambdaupdate.py` lines 102-128 is identical apart from a log line).
The `cf.update_stack` call is always issued; on `ClientError` with exactly
`noUpdatesMsg` the wrapper returns `False`, on any other `ClientError`
message it raises. -/
def update_stack (stack : String) (call : ApiResult) : List Effect × UpdateResult :=
  ([Effect.updateStack stack],
    match call with
    | ApiResult.ok => UpdateResult.started
    | ApiResult.clientError msg =>
        if msg = noUpdatesMsg then UpdateResult.noUpdates
        else UpdateResult.raisedErr ("Error updating CloudFormation stack " ++ stack))

/-- Statuses treated as success by the pollers and the deploy handler
(`provision.py` line 145, `lambdaupdate.py` line 287). -/
def successStatuses : List String := ["UPDATE_COMPLETE", "CREATE_COMPLETE"]

/-- Statuses treated as still-in-progress by the pollers and the deploy
handler (`provision.py` lines 149-151, `lambdaupdate.py` lines 292-294). -/
def inProgressStatuses : List String :=
  ["UPDATE_IN_PROGRESS", "UPDATE_ROLLBACK_IN_PROGRESS",
   "UPDATE_ROLLBACK_COMPLETE_CLEANUP_IN_PROGRESS",
   "CREATE_IN_PROGRESS", "ROLLBACK_IN_PROGRESS"]

/-- Statuses from which the provision script is willing to update the CI
stack (`provision.py` line 325). -/
def provisionEligibleStatuses : List String :=
  ["CREATE_COMPLETE", "ROLLBACK_COMPLETE", "UPDATE_COMPLETE"]

/-- Statuses from which the deploy handler is willing to update the web
stack (`lambdaupdate.py` lines 251-252); one more than the provision
script accepts. -/
def handlerEligibleStatuses : List String :=
  ["CREATE_COMPLETE", "ROLLBACK_COMPLETE", "UPDATE_COMPLETE",
   "UPDATE_ROLLBACK_COMPLETE"]

/-- `wait_for_stack_success` from `provision.py` lines 129-158.  The loop
polls `get_stack_status` once per iteration; the environment supplies the
sequence of statuses the successive polls would observe.  `elapsed` models
`time.time() - start_time`: each iteration ends in `time.sleep(15)`, so the
elapsed time grows by 15 per poll.  `none` means the supplied status list
was exhausted before the loop returned (the real loop would keep polling). -/
def wait_for_stack_success : List String → Nat → Nat → Option Bool
  | [], _, _ => none
  | s :: rest, elapsed, timeout =>
    if s ∈ successStatuses then some true
    else if s ∈ inProgressStatuses then
      if elapsed > timeout then some false
      else wait_for_stack_success rest (elapsed + 15) timeout
    else some false

/-- `wait_for_stack_existence` from `provision.py` lines 160-168, with the
environment supplying the successive `stack_exists` answers and `elapsed`
growing by 15 per `time.sleep(15)`. -/
def wait_for_stack_existence : List Bool → Nat → Nat → Option Bool
  | [], _, _ => none
  | c :: rest, elapsed, timeout =>
    if c then some true
    else if elapsed > timeout then some false
    else wait_for_stack_existence rest (elapsed + 15) timeout

/-- Checks whether the character list `pat` is a prefix of `l`. -/
def startsWithSeq : List Char → List Char → Bool
  | _, [] => true
  | [], _ :: _ => false
  | a :: as, b :: bs => a = b && startsWithSeq as bs

/-- Checks whether the character list `pat` occurs contiguously inside `l`;
this models `re.search` for a pattern with no regex metacharacters. -/
def containsSeq (pat : List Char) : List Char → Bool
  | [] => pat.isEmpty
  | c :: tl => startsWithSeq (c :: tl) pat || containsSeq pat tl

/-- The marker phrase `test_web_site` searches for (`provision.py` line 227). -/
def siteMarker : String := "Automation for the People"

/-- `test_web_site` from `provision.py` lines 214-229.  The environment
supplies the page body fetched by `urllib2.urlopen` (`none` models a
`URLError`, on which the function returns `False`). -/
def test_web_site (body : Option String) : Bool :=
  match body with
  | some b => containsSeq siteMarker.data b.data
  | none => false

/-! ### The deploy pipeline-stage handler (`lambdaupdate.py`) -/

/-- What the CloudFormation service would answer the deploy handler:
`stackStatus = none` means `describe_stacks` raises the "does not exist"
`ClientError`; `updateCallResult` is the outcome of `cf.update_stack` if it
is called. -/
structure DeployWorld where
  stackStatus : Option String
  updateCallResult : ApiResult
deriving DecidableEq, Repr

/-- The fields of the CodePipeline job data that the deploy handler
consumes.  `paramsOk` abstracts `get_user_params` (JSON decode plus the
required-key check) and the `job_data['inputArtifacts']` access succeeding;
`artifactsOk` abstracts `find_artifact`, `setup_s3_client` and
`get_template` succeeding on the new-job path. -/
structure JobData where
  paramsOk : Bool
  hasContinuationToken : Bool
  webStackName : String
  artifactsOk : Bool
deriving DecidableEq, Repr

/-- `start_update_or_create` from `lambdaupdate.py` lines 237-274.  Returns
the trace of calls and `some msg` when an exception propagates out (only
`update_stack` can raise here). -/
def start_update_or_create (jobId stack : String) (w : DeployWorld) :
    List Effect × Option String :=
  match w.stackStatus with
  | some status =>
    -- stack_exists and get_stack_status each issue a describe_stacks call
    let base := [Effect.describeStacks stack, Effect.describeStacks stack]
    if status ∈ handlerEligibleStatuses then
      match update_stack stack w.updateCallResult with
      | (eff, UpdateResult.started) =>
          (base ++ eff ++ [Effect.putJobContinuation jobId], none)
      | (eff, UpdateResult.noUpdates) =>
          (base ++ eff ++ [Effect.putJobSuccess jobId], none)
      | (eff, UpdateResult.raisedErr msg) => (base ++ eff, some msg)
    else
      (base ++ [Effect.putJobFailure jobId], none)
  | none =>
    ([Effect.describeStacks stack, Effect.createStack stack,
      Effect.putJobContinuation jobId], none)

/-- `check_stack_update_status` from `lambdaupdate.py` lines 276-302.
`some msg` in the second component means `get_stack_status` raised (the
stack does not exist), which propagates to the handler. -/
def check_stack_update_status (jobId stack : String) (status : Option String) :
    List Effect × Option String :=
  match status with
  | none => ([Effect.describeStacks stack], some "Stack does not exist")
  | some st =>
    if st ∈ successStatuses then
      ([Effect.describeStacks stack, Effect.putJobSuccess jobId], none)
    else if st ∈ inProgressStatuses then
      ([Effect.describeStacks stack, Effect.putJobContinuation jobId], none)
    else
      ([Effect.describeStacks stack, Effect.putJobFailure jobId], none)

/-- Final fate of a lambda invocation: `complete` models falling through to
`return "Complete."`; `crashed` models an exception escaping the handler
(in particular the `UnboundLocalError` raised when the except branch reads
the never-assigned `job_id`). -/
inductive HandlerResult where
  | complete
  | crashed
deriving DecidableEq, Repr

/-- `lambda_handler` from `lambdaupdate.py` lines 360-415.  The `event` is
`some (jobId, jobData)` when `event['CodePipeline.job']['id']` is present
and `none` otherwise.  When the extraction fails, the except branch itself
raises while reading the unassigned local `job_id`, so the invocation
crashes with no calls issued. -/
def lambda_handler (event : Option (String × JobData)) (w : DeployWorld) :
    List Effect × HandlerResult :=
  match event with
  | none => ([], HandlerResult.crashed)
  | some (jobId, jd) =>
    if jd.paramsOk then
      if jd.hasContinuationToken then
        match check_stack_update_status jobId jd.webStackName w.stackStatus with
        | (eff, none) => (eff, HandlerResult.complete)
        | (eff, some _) => (eff ++ [Effect.putJobFailure jobId], HandlerResult.complete)
      else
        if jd.artifactsOk then
          match start_update_or_create jobId jd.webStackName w with
          | (eff, none) => (eff, HandlerResult.complete)
          | (eff, some _) => (eff ++ [Effect.putJobFailure jobId], HandlerResult.complete)
        else
          -- find_artifact / get_template raised, caught by the except branch
          ([Effect.putJobFailure jobId], HandlerResult.complete)
    else
      -- get_user_params raised, caught by the except branch
      ([Effect.putJobFailure jobId], HandlerResult.complete)

/-! ### The build pipeline-stage handler (`lambdabuild.py`) -/

/-- Job data for the build handler.  `paramsOk` abstracts `get_user_params`
and the artifact-list accesses; `buildOk` abstracts the download, copy,
zip and upload steps of the try body succeeding. -/
structure BuildJobData where
  paramsOk : Bool
  buildOk : Bool
deriving DecidableEq, Repr

/-- `lambda_handler` from `lambdabuild.py` lines 170-222, with the same
event encoding as the deploy handler: a missing `CodePipeline.job` or `id`
key makes the except branch read the unassigned `job_id` and crash. -/
def lambdabuild_handler (event : Option (String × BuildJobData)) :
    List Effect × HandlerResult :=
  match event with
  | none => ([], HandlerResult.crashed)
  | some (jobId, jd) =>
    if jd.paramsOk && jd.buildOk then
      ([Effect.putJobSuccess jobId], HandlerResult.complete)
    else
      ([Effect.putJobFailure jobId], HandlerResult.complete)

/-! ### The bucket provisioner (`provision.py` `ensure_bucket`) -/

/-- The S3 state the bucket provisioner sees: for each existing bucket, its
versioning `Status` (`none` when `get_bucket_versioning` returns no
`Status` key, as for a freshly created bucket). -/
abbrev S3State := List (String × Option String)

/-- Writes the versioning status of `bucket` in the state. -/
def setBucket (s3 : S3State) (bucket : String) (v : Option String) : S3State :=
  (bucket, v) :: s3.filter (fun p => p.1 ≠ bucket)

/-- `ensure_bucket` from `provision.py` lines 170-192.  `head_bucket` fails
exactly when the bucket does not exist (the bare `except:` then creates it;
the region only selects the `CreateBucketConfiguration` variant of the same
`create_bucket` call).  A freshly created bucket has no versioning status,
so the function then enables versioning. -/
def ensure_bucket (s3 : S3State) (bucket _reg : String) : S3State × List Effect :=
  match s3.lookup bucket with
  | some v =>
    if v = some "Enabled" then
      (s3, [Effect.headBucket bucket, Effect.getBucketVersioning bucket])
    else
      (setBucket s3 bucket (some "Enabled"),
       [Effect.headBucket bucket, Effect.getBucketVersioning bucket,
        Effect.putBucketVersioning bucket])
  | none =>
    let created := setBucket s3 bucket none
    (setBucket created bucket (some "Enabled"),
     [Effect.headBucket bucket, Effect.createBucket bucket,
      Effect.getBucketVersioning bucket, Effect.putBucketVersioning bucket])

/-! ### The status script (`status.py`) -/

/-- What the environment would answer the status script.  `ciExists` and
`webExists` are the `stack_exists` answers; the output lists model the
stacks' `Outputs`; `siteBody` is the page body the probe would fetch
(`none` for a `URLError`). -/
structure StatusEnv where
  ciStackName : String
  ciExists : Bool
  ciOutputs : List (String × String)
  webExists : Bool
  webOutputs : List (String × String)
  siteBody : Option String
deriving DecidableEq, Repr

/-- The `__main__` block of `status.py` lines 7-30, returning the trace of
calls and the process exit code.  A missing `BalancerDNSName` output makes
the uncaught `KeyError` terminate the interpreter, which also exits with
code 1. -/
def status_main (env : StatusEnv) : List Effect × Nat :=
  if env.ciExists then
    -- stack_exists plus get_stack_outputs: two describe_stacks calls
    let base := [Effect.describeStacks env.ciStackName,
                 Effect.describeStacks env.ciStackName]
    match env.ciOutputs.lookup "WebStackName" with
    | none => (base, 1)
    | some web =>
      if env.webExists then
        let base2 := base ++ [Effect.describeStacks web, Effect.describeStacks web]
        match env.webOutputs.lookup "BalancerDNSName" with
        | none => (base2, 1)
        | some dns =>
          let eff := base2 ++ [Effect.httpGet ("http://" ++ dns)]
          if test_web_site env.siteBody then (eff, 0) else (eff, 1)
      else (base ++ [Effect.describeStacks web], 1)
  else ([Effect.describeStacks env.ciStackName], 1)

/-! ### The terminate script (`terminate.py`) -/

/-- What the environment would answer the terminate script, plus the string
the user types at the interactive prompt. -/
structure TerminateEnv where
  userInput : String
  ciStackName : String
  ciExists : Bool
  ciOutputs : List (String × String)
  webExists : Bool
deriving DecidableEq, Repr

/-- `terminate_stack` from `terminate.py` lines 15-18: delete the stack and
wait for the deletion to complete. -/
def terminate_stack (stack : String) : List Effect :=
  [Effect.deleteStack stack, Effect.waitDeleteComplete stack]

/-- The `__main__` block of `terminate.py` lines 25-46, returning the trace
of calls and the process exit code.  `user_wants_terminate` accepts only
the exact input `yes`.  The script never touches the S3 bucket (its header
comment: terminate everything except the S3 bucket). -/
def terminate_main (env : TerminateEnv) : List Effect × Nat :=
  if env.userInput = "yes" then
    if env.ciExists then
      -- stack_exists plus get_stack_outputs: two describe_stacks calls
      let base := [Effect.describeStacks env.ciStackName,
                   Effect.describeStacks env.ciStackName]
      match env.ciOutputs.lookup "WebStackName" with
      | some web =>
        if env.webExists then
          (base ++ [Effect.describeStacks web] ++ terminate_stack web ++
             terminate_stack env.ciStackName, 0)
        else
          (base ++ [Effect.describeStacks web] ++ terminate_stack env.ciStackName, 0)
      | none => (base ++ terminate_stack env.ciStackName, 0)
    else ([Effect.describeStacks env.ciStackName], 0)
  else ([], 0)

/-! ### The provision script's main sequence (`provision.py` `__main__`) -/

/-- Fate of a step of the provision sequence: `ok` falls through to the
next statement, `systemExit code` models `sys.exit(code)` (a `SystemExit`,
which `except Exception` does not catch), `raised msg` models any other
exception, and `stuck` means the environment supplied too few poll
answers to decide the run. -/
inductive StepResult where
  | ok
  | systemExit (code : Nat)
  | raised (msg : String)
  | stuck
deriving DecidableEq, Repr

/-- The message of the `NameError` raised at `provision.py` line 363, where
the retry loop calls the undefined name `sleep` instead of `time.sleep`. -/
def nameErrorMsg : String := "NameError: name sleep is not defined"

/-- The retry loop of `provision.py` lines 358-363, entered after the first
`test_web_site` probe returned `False`.  Each iteration re-probes the site;
on a failed probe it checks the 600-second timeout and then calls
`sleep(10)` — an undefined name, so a `NameError` is raised there and no
iteration ever completes.  Consequently the loop never recurses and
`elapsed` (which only `time.sleep` calls would advance) stays at its
initial value. -/
def site_retry_loop (probes : List Bool) (elapsed : Nat) : StepResult :=
  match probes with
  | [] => StepResult.stuck
  | p :: _ =>
    if p then StepResult.ok
    else if elapsed > 600 then StepResult.systemExit 1
    else StepResult.raised nameErrorMsg

/-- The environment of one run of the provision script: configuration
variables, answers of the AWS services, and the successive poll/probe
answers. -/
structure ProvisionEnv where
  appName : String
  keynameVar : Option String
  githubUserVar : Option String
  githubTokenVar : Option String
  region : String
  accountIdOk : Bool
  s3 : S3State
  uploadOk : Bool
  templateReadOk : Bool
  ciStackName : String
  ciStackStatus : Option String
  ciUpdateCall : ApiResult
  ciWaitStatuses : List String
  ciOutputs : List (String × String)
  webExistChecks : List Bool
  webWaitStatuses : List String
  webOutputs : List (String × String)
  probes : List Bool
deriving Repr

/-- `assert_config` from `provision.py` lines 231-245.  Its first test,
`if aws_region is None`, compares the function object itself — never
`None` — so that branch is dead; the three environment-variable checks
each `sys.exit(1)` when the variable is unset. -/
def assert_config (env : ProvisionEnv) : Option Nat :=
  if env.keynameVar.isNone then some 1
  else if env.githubUserVar.isNone then some 1
  else if env.githubTokenVar.isNone then some 1
  else none

/-- The CI-stack step of `provision.py` lines 322-338: if the stack exists,
check its status is one of `provisionEligibleStatuses` (else exit 1), then
start an update and, when there were updates, wait for it; if it does not
exist, create it and wait. -/
def provision_ci_step (stack : String) (stackStatus : Option String)
    (updateCall : ApiResult) (waitStatuses : List String) :
    List Effect × StepResult :=
  match stackStatus with
  | some status =>
    -- stack_exists plus get_stack_status: two describe_stacks calls
    let base := [Effect.describeStacks stack, Effect.describeStacks stack]
    if status ∈ provisionEligibleStatuses then
      match update_stack stack updateCall with
      | (eff, UpdateResult.started) =>
        match wait_for_stack_success waitStatuses 0 600 with
        | some true => (base ++ eff, StepResult.ok)
        | some false => (base ++ eff, StepResult.systemExit 1)
        | none => (base ++ eff, StepResult.stuck)
      | (eff, UpdateResult.noUpdates) => (base ++ eff, StepResult.ok)
      | (eff, UpdateResult.raisedErr msg) => (base ++ eff, StepResult.raised msg)
    else
      (base, StepResult.systemExit 1)
  | none =>
    let base := [Effect.describeStacks stack, Effect.createStack stack]
    match wait_for_stack_success waitStatuses 0 600 with
    | some true => (base, StepResult.ok)
    | some false => (base, StepResult.systemExit 1)
    | none => (base, StepResult.stuck)

/-- The try body of `provision.py` lines 294-363 as a sequence of steps.
`ensure_bucket` cannot fail in the model; `uploadOk` and `templateReadOk`
abstract the lambda upload and the `ci.template` read; output lookups model
the `ci_outputs[...]` / `web_outputs[...]` accesses, whose missing keys
raise `KeyError`. -/
def provision_body (env : ProvisionEnv) : StepResult :=
  match assert_config env with
  | some code => StepResult.systemExit code
  | none =>
    -- aws_account_id prints and exits 1 itself when it cannot get the id
    if !env.accountIdOk then StepResult.systemExit 1
    else if !env.uploadOk then StepResult.raised "failed to upload lambda functions"
    else if !env.templateReadOk then StepResult.raised "IOError: cannot read ci.template"
    else
      match (provision_ci_step env.ciStackName env.ciStackStatus env.ciUpdateCall
               env.ciWaitStatuses).2 with
      | StepResult.ok =>
        match env.ciOutputs.lookup "ApplicationSource",
              env.ciOutputs.lookup "CodePipelineURL",
              env.ciOutputs.lookup "WebStackName" with
        | some _, some _, some _ =>
          match wait_for_stack_existence env.webExistChecks 0 600 with
          | some true =>
            match wait_for_stack_success env.webWaitStatuses 0 600 with
            | some true =>
              match env.webOutputs.lookup "ApplicationBuild",
                    env.webOutputs.lookup "BalancerDNSName" with
              | some _, some _ =>
                match env.probes with
                | [] => StepResult.stuck
                | p :: rest => if p then StepResult.ok else site_retry_loop rest 0
              | _, _ => StepResult.raised "KeyError"
            | some false => StepResult.systemExit 1
            | none => StepResult.stuck
          | some false => StepResult.systemExit 1
          | none => StepResult.stuck
        | _, _, _ => StepResult.raised "KeyError"
      | StepResult.systemExit code => StepResult.systemExit code
      | StepResult.raised msg => StepResult.raised msg
      | StepResult.stuck => StepResult.stuck

/-- The whole `__main__` of `provision.py` lines 293-370: the try body
wrapped in `except Exception`, which prints the exception and falls off the
end of the script, so the process exits with code 0; `sys.exit` raises
`SystemExit`, which the handler does not catch, so its code survives. -/
def provision_main (env : ProvisionEnv) : Option Nat :=
  match provision_body env with
  | StepResult.ok => some 0
  | StepResult.systemExit code => some code
  | StepResult.raised _ => some 0
  | StepResult.stuck => none

/-- A concrete terminate-script environment: the user types exactly `yes`,
the CI stack exists, and its outputs name a web stack that also exists. -/
def terminateEnvYes : TerminateEnv :=
  ⟨"yes", "a4tp-ci", true, [("WebStackName", "a4tp-web")], true⟩

/-- A concrete provision environment whose run raises inside the try body:
configuration is complete, the CI stack is in `CREATE_COMPLETE`, and the
update call is rejected with an unexpected client error. -/
def provisionEnvRaise : ProvisionEnv :=
  ⟨"a4tp", some "mykey", some "user", some "token", "us-east-1", true,
   [], true, true, "a4tp-ci", some "CREATE_COMPLETE",
   ApiResult.clientError "AccessDenied", [], [], [], [], [], []⟩

/-! ## Theorems -/

/-- C3: for every stack, template and parameter list, `update_stack` returns
`True` (here `UpdateResult.started`) when the underlying `cf.update_stack`
call succeeds; returns `False` (`UpdateResult.noUpdates`, a non-error
outcome) when the service rejects the call with a `ClientError` whose
message is exactly "No updates are to be performed."; and raises an
exception for every client error with any other message. -/
theorem C3_update_stack_outcomes (stack : String) :
    update_stack stack ApiResult.ok =
      ([Effect.updateStack stack], UpdateResult.started) ∧
    update_stack stack (ApiResult.clientError noUpdatesMsg) =
      ([Effect.updateStack stack], UpdateResult.noUpdates) ∧
    (∀ msg, msg ≠ noUpdatesMsg →
      update_stack stack (ApiResult.clientError msg) =
        ([Effect.updateStack stack],
         UpdateResult.raisedErr ("Error updating CloudFormation stack " ++ stack))) := by
  refine ⟨rfl, by simp [update_stack], ?_⟩
  intro msg hmsg
  simp [update_stack, hmsg]

/-- Witness for C3: concrete evaluations of the three outcomes, with the
hypothesis of the third conjunct discharged at the message "AccessDenied". -/
theorem C3_update_stack_outcomes_witness :
    update_stack "demo-web" ApiResult.ok =
      ([Effect.updateStack "demo-web"], UpdateResult.started) ∧
    update_stack "demo-web" (ApiResult.clientError noUpdatesMsg) =
      ([Effect.updateStack "demo-web"], UpdateResult.noUpdates) ∧
    ("AccessDenied" ≠ noUpdatesMsg ∧
      update_stack "demo-web" (ApiResult.clientError "AccessDenied") =
        ([Effect.updateStack "demo-web"],
         UpdateResult.raisedErr "Error updating CloudFormation stack demo-web")) := by
  obtain ⟨h1, h2, h3⟩ := C3_update_stack_outcomes "demo-web"
  exact ⟨h1, h2, by decide, h3 "AccessDenied" (by decide)⟩

/-- A status in the in-progress set is never in the success set. -/
theorem inProgress_not_success {s : String} (h : s ∈ inProgressStatuses) :
    s ∉ successStatuses := by
  fin_cases h <;> decide

/-- `wait_for_stack_success` returns `True` exactly when some polled status
is a success status, every earlier poll saw an in-progress status, and each
of those earlier polls happened within the timeout. -/
theorem wait_true_iff (statuses : List String) (e T : Nat) :
    wait_for_stack_success statuses e T = some true ↔
      ∃ k s, statuses[k]? = some s ∧ s ∈ successStatuses ∧
        ∀ j, j < k → ∃ t, statuses[j]? = some t ∧ t ∈ inProgressStatuses ∧
          e + 15 * j ≤ T := by
  induction statuses generalizing e with
  | nil => simp [wait_for_stack_success]
  | cons s rest ih =>
    simp only [wait_for_stack_success]
    by_cases hs : s ∈ successStatuses
    · rw [if_pos hs]
      constructor
      · intro _
        exact ⟨0, s, by simp, hs, fun j hj => absurd hj (Nat.not_lt_zero j)⟩
      · intro _
        rfl
    · rw [if_neg hs]
      by_cases hp : s ∈ inProgressStatuses
      · rw [if_pos hp]
        by_cases ht : e > T
        · rw [if_pos ht]
          constructor
          · intro h
            simp at h
          · rintro ⟨k, s', hk, hsucc, hall⟩
            exfalso
            cases k with
            | zero =>
              rw [List.getElem?_cons_zero, Option.some.injEq] at hk
              subst hk
              exact hs hsucc
            | succ k' =>
              obtain ⟨t, ht0, _, hle⟩ := hall 0 (Nat.succ_pos k')
              omega
        · rw [if_neg ht, ih (e + 15)]
          constructor
          · rintro ⟨k, s', hk, hsucc, hall⟩
            refine ⟨k + 1, s', by simpa [List.getElem?_cons_succ] using hk, hsucc, ?_⟩
            intro j hj
            cases j with
            | zero =>
              exact ⟨s, by simp, hp, by omega⟩
            | succ j' =>
              obtain ⟨t, ht', htp, hle⟩ := hall j' (by omega)
              exact ⟨t, by simpa [List.getElem?_cons_succ] using ht', htp, by omega⟩
          · rintro ⟨k, s', hk, hsucc, hall⟩
            cases k with
            | zero =>
              rw [List.getElem?_cons_zero, Option.some.injEq] at hk
              subst hk
              exact absurd hsucc hs
            | succ k' =>
              refine ⟨k', s', by simpa [List.getElem?_cons_succ] using hk, hsucc, ?_⟩
              intro j hj
              obtain ⟨t, ht', htp, hle⟩ := hall (j + 1) (by omega)
              exact ⟨t, by simpa [List.getElem?_cons_succ] using ht', htp, by omega⟩
      · rw [if_neg hp]
        constructor
        · intro h
          simp at h
        · rintro ⟨k, s', hk, hsucc, hall⟩
          exfalso
          cases k with
          | zero =>
            rw [List.getElem?_cons_zero, Option.some.injEq] at hk
            subst hk
            exact hs hsucc
          | succ k' =>
            obtain ⟨t, ht0, htp, _⟩ := hall 0 (Nat.succ_pos k')
            rw [List.getElem?_cons_zero, Option.some.injEq] at ht0
            subst ht0
            exact hp htp

/-- `wait_for_stack_success` returns `False` as soon as a poll sees a
status that is neither success nor in-progress, or an in-progress status
after the timeout has elapsed, provided every earlier poll saw an
in-progress status within the timeout. -/
theorem wait_false_of (statuses : List String) :
    ∀ (e T k : Nat) (s : String),
      statuses[k]? = some s → s ∉ successStatuses →
      (s ∉ inProgressStatuses ∨ e + 15 * k > T) →
      (∀ j, j < k → ∃ t, statuses[j]? = some t ∧ t ∈ inProgressStatuses ∧
        e + 15 * j ≤ T) →
      wait_for_stack_success statuses e T = some false := by
  induction statuses with
  | nil =>
    intro e T k s hk
    simp at hk
  | cons s0 rest ih =>
    intro e T k s hk hns hbad hpre
    cases k with
    | zero =>
      rw [List.getElem?_cons_zero, Option.some.injEq] at hk
      subst hk
      simp only [wait_for_stack_success]
      rw [if_neg hns]
      rcases hbad with hnp | ht
      · rw [if_neg hnp]
      · by_cases hp : s0 ∈ inProgressStatuses
        · rw [if_pos hp, if_pos (by omega : e > T)]
        · rw [if_neg hp]
    | succ k' =>
      obtain ⟨t, ht0, htp, hle⟩ := hpre 0 (Nat.succ_pos k')
      rw [List.getElem?_cons_zero, Option.some.injEq] at ht0
      subst ht0
      simp only [wait_for_stack_success]
      rw [if_neg (inProgress_not_success htp), if_pos htp,
          if_neg (by omega : ¬ e > T)]
      refine ih (e + 15) T k' s (by simpa [List.getElem?_cons_succ] using hk) hns ?_ ?_
      · rcases hbad with hnp | hT
        · exact Or.inl hnp
        · exact Or.inr (by omega)
      · intro j hj
        obtain ⟨u, hu, hup, hut⟩ := hpre (j + 1) (by omega)
        exact ⟨u, by simpa [List.getElem?_cons_succ] using hu, hup, by omega⟩

/-- C4: for every sequence of observed stack statuses,
`wait_for_stack_success` (which polls on a fixed 15-second interval, so the
k-th poll happens 15k seconds in) returns `True` exactly when a success
status (`UPDATE_COMPLETE` or `CREATE_COMPLETE`) is observed while every
earlier observation was an in-progress status seen within the timeout; it
returns `False` as soon as a status outside both sets is observed, and
returns `False` when an in-progress status is observed after more than
`timeout` seconds have elapsed. -/
theorem C4_wait_for_stack_success_behavior (statuses : List String) (timeout : Nat) :
    (wait_for_stack_success statuses 0 timeout = some true ↔
      ∃ k s, statuses[k]? = some s ∧ s ∈ successStatuses ∧
        ∀ j, j < k → ∃ t, statuses[j]? = some t ∧ t ∈ inProgressStatuses ∧
          15 * j ≤ timeout) ∧
    (∀ k s, statuses[k]? = some s → s ∉ successStatuses →
      s ∉ inProgressStatuses →
      (∀ j, j < k → ∃ t, statuses[j]? = some t ∧ t ∈ inProgressStatuses ∧
        15 * j ≤ timeout) →
      wait_for_stack_success statuses 0 timeout = some false) ∧
    (∀ k s, statuses[k]? = some s → s ∈ inProgressStatuses →
      15 * k > timeout →
      (∀ j, j < k → ∃ t, statuses[j]? = some t ∧ t ∈ inProgressStatuses ∧
        15 * j ≤ timeout) →
      wait_for_stack_success statuses 0 timeout = some false) := by
  refine ⟨?_, ?_, ?_⟩
  · have h := wait_true_iff statuses 0 timeout
    simpa using h
  · intro k s hk hns hnp hpre
    refine wait_false_of statuses 0 timeout k s hk hns (Or.inl hnp) ?_
    intro j hj
    obtain ⟨t, h1, h2, h3⟩ := hpre j hj
    exact ⟨t, h1, h2, by omega⟩
  · intro k s hk hp hT hpre
    refine wait_false_of statuses 0 timeout k s hk (inProgress_not_success hp)
      (Or.inr (by omega)) ?_
    intro j hj
    obtain ⟨t, h1, h2, h3⟩ := hpre j hj
    exact ⟨t, h1, h2, by omega⟩

/-- Witness for C4: on the concrete poll sequence in-progress then
complete, the characterization yields `True`; on a rollback status it
yields `False`. -/
theorem C4_wait_for_stack_success_behavior_witness :
    wait_for_stack_success ["CREATE_IN_PROGRESS", "CREATE_COMPLETE"] 0 600 = some true ∧
    wait_for_stack_success ["ROLLBACK_COMPLETE"] 0 600 = some false := by
  constructor
  · exact (C4_wait_for_stack_success_behavior
      ["CREATE_IN_PROGRESS", "CREATE_COMPLETE"] 600).1.mpr
      ⟨1, "CREATE_COMPLETE", by decide, by decide, by
        intro j hj
        interval_cases j
        exact ⟨"CREATE_IN_PROGRESS", by decide, by decide, by omega⟩⟩
  · exact (C4_wait_for_stack_success_behavior ["ROLLBACK_COMPLETE"] 600).2.1 0
      "ROLLBACK_COMPLETE" (by decide) (by decide) (by decide)
      (fun j hj => absurd hj (Nat.not_lt_zero j))

/-- C1: create-vs-update decision.  For the deploy handler's new-job path
(`start_update_or_create`) and the provision script's CI-stack step: when
the target stack does not exist, `create_stack` is called; when it exists
with a completed eligible status, an update is attempted
(`cf.update_stack` is called); when it exists with any other status, the
operation fails — the handler reports job failure, the script exits with
code 1 — without calling `create_stack` or `update_stack`. -/
theorem C1_create_vs_update_eligibility (jid stack : String) (w : DeployWorld)
    (status : Option String) (call : ApiResult) (waitStatuses : List String) :
    (w.stackStatus = none →
      (start_update_or_create jid stack w).1 =
        [Effect.describeStacks stack, Effect.createStack stack,
         Effect.putJobContinuation jid]) ∧
    (∀ st, w.stackStatus = some st → st ∈ handlerEligibleStatuses →
      Effect.updateStack stack ∈ (start_update_or_create jid stack w).1) ∧
    (∀ st, w.stackStatus = some st → st ∉ handlerEligibleStatuses →
      (start_update_or_create jid stack w).1 =
        [Effect.describeStacks stack, Effect.describeStacks stack,
         Effect.putJobFailure jid]) ∧
    (status = none →
      Effect.createStack stack ∈
        (provision_ci_step stack status call waitStatuses).1) ∧
    (∀ st, status = some st → st ∈ provisionEligibleStatuses →
      Effect.updateStack stack ∈
        (provision_ci_step stack status call waitStatuses).1) ∧
    (∀ st, status = some st → st ∉ provisionEligibleStatuses →
      (provision_ci_step stack status call waitStatuses).2 = StepResult.systemExit 1 ∧
      (provision_ci_step stack status call waitStatuses).1 =
        [Effect.describeStacks stack, Effect.describeStacks stack]) := by
  refine ⟨?_, ?_, ?_, ?_, ?_, ?_⟩
  · intro h
    simp [start_update_or_create, h]
  · intro st h he
    cases hc : w.updateCallResult with
    | ok => simp [start_update_or_create, h, he, update_stack, hc]
    | clientError msg =>
      by_cases hm : msg = noUpdatesMsg
      · simp [start_update_or_create, h, he, update_stack, hc, hm]
      · simp [start_update_or_create, h, he, update_stack, hc, hm]
  · intro st h he
    simp [start_update_or_create, h, he]
  · intro h
    subst h
    cases hw : wait_for_stack_success waitStatuses 0 600 with
    | none => simp [provision_ci_step, hw]
    | some b => cases b <;> simp [provision_ci_step, hw]
  · intro st h he
    subst h
    cases hc : call with
    | ok =>
      cases hw : wait_for_stack_success waitStatuses 0 600 with
      | none => simp [provision_ci_step, he, update_stack, hw]
      | some b => cases b <;> simp [provision_ci_step, he, update_stack, hw]
    | clientError msg =>
      by_cases hm : msg = noUpdatesMsg
      · simp [provision_ci_step, he, update_stack, hm]
      · simp [provision_ci_step, he, update_stack, hm]
  · intro st h he
    subst h
    simp [provision_ci_step, he]

/-- Witness for C1: the three decision outcomes evaluated at concrete
worlds — a missing stack, a stack in `CREATE_COMPLETE`, and a stack in
`UPDATE_IN_PROGRESS` — for both the handler and the provision step. -/
theorem C1_create_vs_update_eligibility_witness :
    (start_update_or_create "job-1" "demo-web"
        ⟨none, ApiResult.ok⟩).1 =
      [Effect.describeStacks "demo-web", Effect.createStack "demo-web",
       Effect.putJobContinuation "job-1"] ∧
    Effect.updateStack "demo-web" ∈ (start_update_or_create "job-1" "demo-web"
        ⟨some "CREATE_COMPLETE", ApiResult.ok⟩).1 ∧
    (start_update_or_create "job-1" "demo-web"
        ⟨some "UPDATE_IN_PROGRESS", ApiResult.ok⟩).1 =
      [Effect.describeStacks "demo-web", Effect.describeStacks "demo-web",
       Effect.putJobFailure "job-1"] ∧
    Effect.createStack "demo-ci" ∈
      (provision_ci_step "demo-ci" none ApiResult.ok ["CREATE_COMPLETE"]).1 ∧
    Effect.updateStack "demo-ci" ∈
      (provision_ci_step "demo-ci" (some "UPDATE_COMPLETE") ApiResult.ok
        ["UPDATE_COMPLETE"]).1 ∧
    (provision_ci_step "demo-ci" (some "DELETE_IN_PROGRESS") ApiResult.ok []).2 =
      StepResult.systemExit 1 := by
  refine ⟨?_, ?_, ?_, ?_, ?_, ?_⟩
  · exact (C1_create_vs_update_eligibility "job-1" "demo-web"
      ⟨none, ApiResult.ok⟩ none ApiResult.ok []).1 rfl
  · exact (C1_create_vs_update_eligibility "job-1" "demo-web"
      ⟨some "CREATE_COMPLETE", ApiResult.ok⟩ none ApiResult.ok []).2.1
      "CREATE_COMPLETE" rfl (by decide)
  · exact (C1_create_vs_update_eligibility "job-1" "demo-web"
      ⟨some "UPDATE_IN_PROGRESS", ApiResult.ok⟩ none ApiResult.ok []).2.2.1
      "UPDATE_IN_PROGRESS" rfl (by decide)
  · exact (C1_create_vs_update_eligibility "job-1" "demo-ci"
      ⟨none, ApiResult.ok⟩ none ApiResult.ok ["CREATE_COMPLETE"]).2.2.2.1 rfl
  · exact (C1_create_vs_update_eligibility "job-1" "demo-ci"
      ⟨none, ApiResult.ok⟩ (some "UPDATE_COMPLETE") ApiResult.ok
      ["UPDATE_COMPLETE"]).2.2.2.2.1 "UPDATE_COMPLETE" rfl (by decide)
  · exact ((C1_create_vs_update_eligibility "job-1" "demo-ci"
      ⟨none, ApiResult.ok⟩ (some "DELETE_IN_PROGRESS") ApiResult.ok
      []).2.2.2.2.2 "DELETE_IN_PROGRESS" rfl (by decide)).1

/-- C9: for every event that lacks the `CodePipeline.job` key or its `id`
(modelled as `event = none`), both lambda handlers crash — the except
branch reads the unassigned local `job_id`, raising a second exception —
and no job report of any kind (in particular no failure result) is sent to
the pipeline. -/
theorem C9_missing_job_key_crashes (w : DeployWorld) :
    lambda_handler none w = ([], HandlerResult.crashed) ∧
    lambdabuild_handler none = ([], HandlerResult.crashed) :=
  ⟨rfl, rfl⟩

/-- C2: for every deploy-handler invocation whose job data contains the
`continuationToken` key, the handler never calls `create_stack` or
`update_stack` and sends exactly one job report; moreover (when the user
parameters decode and the stack status is readable) the report is job
success when the status is `UPDATE_COMPLETE` or `CREATE_COMPLETE`, job
continuation when the status is in the in-progress set, and job failure
for any other status. -/
theorem C2_continuation_only_polls (jid : String) (jd : JobData) (w : DeployWorld)
    (hcont : jd.hasContinuationToken = true) :
    (∀ s, Effect.createStack s ∉ (lambda_handler (some (jid, jd)) w).1) ∧
    (∀ s, Effect.updateStack s ∉ (lambda_handler (some (jid, jd)) w).1) ∧
    ((lambda_handler (some (jid, jd)) w).1.filter Effect.isJobReport).length = 1 ∧
    (jd.paramsOk = true → ∀ st, w.stackStatus = some st →
      ((st ∈ successStatuses →
        (lambda_handler (some (jid, jd)) w).1.filter Effect.isJobReport =
          [Effect.putJobSuccess jid]) ∧
       (st ∈ inProgressStatuses →
        (lambda_handler (some (jid, jd)) w).1.filter Effect.isJobReport =
          [Effect.putJobContinuation jid]) ∧
       (st ∉ successStatuses → st ∉ inProgressStatuses →
        (lambda_handler (some (jid, jd)) w).1.filter Effect.isJobReport =
          [Effect.putJobFailure jid]))) := by
  cases hpo : jd.paramsOk with
  | false =>
    refine ⟨?_, ?_, ?_, ?_⟩
    · intro s
      simp [lambda_handler, hpo]
    · intro s
      simp [lambda_handler, hpo]
    · simp [lambda_handler, hpo, Effect.isJobReport]
    · intro hpt
      simp at hpt
  | true =>
    cases hst : w.stackStatus with
    | none =>
      refine ⟨?_, ?_, ?_, ?_⟩
      · intro s
        simp [lambda_handler, hpo, hcont, check_stack_update_status, hst]
      · intro s
        simp [lambda_handler, hpo, hcont, check_stack_update_status, hst]
      · simp [lambda_handler, hpo, hcont, check_stack_update_status, hst,
          Effect.isJobReport]
      · intro _ st hst2
        simp at hst2
    | some st =>
      by_cases h1 : st ∈ successStatuses
      · refine ⟨?_, ?_, ?_, ?_⟩
        · intro s
          simp [lambda_handler, hpo, hcont, check_stack_update_status, hst, h1]
        · intro s
          simp [lambda_handler, hpo, hcont, check_stack_update_status, hst, h1]
        · simp [lambda_handler, hpo, hcont, check_stack_update_status, hst, h1,
            Effect.isJobReport]
        · intro _ st2 hst2
          rw [Option.some.injEq] at hst2
          subst hst2
          refine ⟨?_, ?_, ?_⟩
          · intro _
            simp [lambda_handler, hpo, hcont, check_stack_update_status, hst, h1,
              Effect.isJobReport]
          · intro h2
            exact absurd h1 (inProgress_not_success h2)
          · intro hn _
            exact absurd h1 hn
      · by_cases h2 : st ∈ inProgressStatuses
        · refine ⟨?_, ?_, ?_, ?_⟩
          · intro s
            simp [lambda_handler, hpo, hcont, check_stack_update_status, hst, h1, h2]
          · intro s
            simp [lambda_handler, hpo, hcont, check_stack_update_status, hst, h1, h2]
          · simp [lambda_handler, hpo, hcont, check_stack_update_status, hst, h1, h2,
              Effect.isJobReport]
          · intro _ st2 hst2
            rw [Option.some.injEq] at hst2
            subst hst2
            refine ⟨?_, ?_, ?_⟩
            · intro hsucc
              exact absurd hsucc h1
            · intro _
              simp [lambda_handler, hpo, hcont, check_stack_update_status, hst, h1,
                h2, Effect.isJobReport]
            · intro _ hnp
              exact absurd h2 hnp
        · refine ⟨?_, ?_, ?_, ?_⟩
          · intro s
            simp [lambda_handler, hpo, hcont, check_stack_update_status, hst, h1, h2]
          · intro s
            simp [lambda_handler, hpo, hcont, check_stack_update_status, hst, h1, h2]
          · simp [lambda_handler, hpo, hcont, check_stack_update_status, hst, h1, h2,
              Effect.isJobReport]
          · intro _ st2 hst2
            rw [Option.some.injEq] at hst2
            subst hst2
            refine ⟨?_, ?_, ?_⟩
            · intro hsucc
              exact absurd hsucc h1
            · intro hp
              exact absurd hp h2
            · intro _ _
              simp [lambda_handler, hpo, hcont, check_stack_update_status, hst, h1,
                h2, Effect.isJobReport]

/-- Witness for C2: a continuing invocation over a stack in
`UPDATE_COMPLETE` issues no create or update call and reports exactly one
job success. -/
theorem C2_continuation_only_polls_witness :
    Effect.createStack "demo-web" ∉
      (lambda_handler (some ("job-1", ⟨true, true, "demo-web", true⟩))
        ⟨some "UPDATE_COMPLETE", ApiResult.ok⟩).1 ∧
    Effect.updateStack "demo-web" ∉
      (lambda_handler (some ("job-1", ⟨true, true, "demo-web", true⟩))
        ⟨some "UPDATE_COMPLETE", ApiResult.ok⟩).1 ∧
    (lambda_handler (some ("job-1", ⟨true, true, "demo-web", true⟩))
        ⟨some "UPDATE_COMPLETE", ApiResult.ok⟩).1.filter Effect.isJobReport =
      [Effect.putJobSuccess "job-1"] := by
  obtain ⟨hc, hu, -, hrep⟩ := C2_continuation_only_polls "job-1"
    ⟨true, true, "demo-web", true⟩ ⟨some "UPDATE_COMPLETE", ApiResult.ok⟩ rfl
  exact ⟨hc "demo-web", hu "demo-web",
    ((hrep rfl "UPDATE_COMPLETE" rfl).1 (by decide))⟩

/-- Looking up the bucket just written by `setBucket` yields its value. -/
theorem lookup_setBucket (s3 : S3State) (b : String) (v : Option String) :
    (setBucket s3 b v).lookup b = some v := by
  simp [setBucket, List.lookup]

/-- C7: after `ensure_bucket` returns, the named bucket exists with
versioning `Enabled`; and when the bucket already exists with versioning
enabled, `ensure_bucket` issues no `create_bucket` and no
`put_bucket_versioning` call and leaves the S3 state unchanged, so running
it again changes nothing. -/
theorem C7_ensure_bucket_versioned_idempotent (s3 : S3State) (bucket reg : String) :
    (ensure_bucket s3 bucket reg).1.lookup bucket = some (some "Enabled") ∧
    (s3.lookup bucket = some (some "Enabled") →
      (ensure_bucket s3 bucket reg).1 = s3 ∧
      (ensure_bucket s3 bucket reg).2.countP Effect.isBucketWrite = 0) := by
  constructor
  · cases hl : s3.lookup bucket with
    | none => simp [ensure_bucket, hl, lookup_setBucket]
    | some v =>
      by_cases hv : v = some "Enabled"
      · subst hv
        simp [ensure_bucket, hl]
      · simp [ensure_bucket, hl, hv, lookup_setBucket]
  · intro h
    simp [ensure_bucket, h, Effect.isBucketWrite, List.countP_cons]

/-- Witness for C7: on a state where the bucket already exists with
versioning enabled, the post-state has versioning enabled, nothing changed,
and no bucket-mutating call was issued. -/
theorem C7_ensure_bucket_versioned_idempotent_witness :
    ([("builds-a4tp", some "Enabled")] : S3State).lookup "builds-a4tp" =
      some (some "Enabled") ∧
    (ensure_bucket [("builds-a4tp", some "Enabled")] "builds-a4tp"
      "us-east-1").1.lookup "builds-a4tp" = some (some "Enabled") ∧
    (ensure_bucket [("builds-a4tp", some "Enabled")] "builds-a4tp"
      "us-east-1").1 = [("builds-a4tp", some "Enabled")] ∧
    (ensure_bucket [("builds-a4tp", some "Enabled")] "builds-a4tp"
      "us-east-1").2.countP Effect.isBucketWrite = 0 := by
  have hl : ([("builds-a4tp", some "Enabled")] : S3State).lookup "builds-a4tp" =
      some (some "Enabled") := by decide
  obtain ⟨h1, h2⟩ := C7_ensure_bucket_versioned_idempotent
    [("builds-a4tp", some "Enabled")] "builds-a4tp" "us-east-1"
  exact ⟨hl, h1, (h2 hl).1, (h2 hl).2⟩

/-- C8: if any exception other than `SystemExit` escapes the provision
script's main try body, the `except Exception` handler prints it and the
script terminates with exit code 0 — the same exit code as a fully
successful run — so a caller cannot tell such a failure from success by
exit status. -/
theorem C8_exception_swallowed_exit_zero (env : ProvisionEnv) :
    (∀ msg, provision_body env = StepResult.raised msg →
      provision_main env = some 0) ∧
    (provision_body env = StepResult.ok → provision_main env = some 0) := by
  constructor
  · intro msg h
    simp [provision_main, h]
  · intro h
    simp [provision_main, h]

/-- Witness for C8: a concrete run in which the CI-stack update is rejected
with an unexpected client error; the body raises, yet the script exits 0. -/
theorem C8_exception_swallowed_exit_zero_witness :
    provision_body provisionEnvRaise =
      StepResult.raised "Error updating CloudFormation stack a4tp-ci" ∧
    provision_main provisionEnvRaise = some 0 := by
  have h : provision_body provisionEnvRaise =
      StepResult.raised "Error updating CloudFormation stack a4tp-ci" := by decide
  exact ⟨h, (C8_exception_swallowed_exit_zero provisionEnvRaise).1 _ h⟩

/-- C10: once the first probe inside the retry loop fails, the loop body
reaches the undefined name `sleep` and raises a `NameError`; consequently
the loop never sleeps between probes and its 600-second-timeout exit
(`sys.exit(1)`) is unreachable from the loop's entry, where no time has
elapsed. -/
theorem C10_retry_loop_name_error :
    (∀ rest : List Bool, site_retry_loop (false :: rest) 0 =
      StepResult.raised nameErrorMsg) ∧
    (∀ probes : List Bool, site_retry_loop probes 0 ≠ StepResult.systemExit 1) := by
  constructor
  · intro rest
    rfl
  · intro probes
    cases probes with
    | nil => simp [site_retry_loop]
    | cons p rest => cases p <;> simp [site_retry_loop]

/-- C6: the status script is read-only — every call it issues is a
describe/read call or an HTTP GET, of which there is at most one — and it
exits with code 0 exactly when the CI stack exists, the CI stack's outputs
contain a `WebStackName` naming a stack that exists, that stack's outputs
contain a `BalancerDNSName`, and the site probe finds the expected marker
in the page body; in every other case it exits with code 1. -/
theorem C6_status_read_only_exit_codes (env : StatusEnv) :
    (∀ e ∈ (status_main env).1, e.isReadOnly = true) ∧
    (status_main env).1.countP Effect.isHttpGet ≤ 1 ∧
    ((status_main env).2 = 0 ↔
      env.ciExists = true ∧
      ∃ web, env.ciOutputs.lookup "WebStackName" = some web ∧
        env.webExists = true ∧
        ∃ dns, env.webOutputs.lookup "BalancerDNSName" = some dns ∧
          test_web_site env.siteBody = true) := by
  cases hci : env.ciExists with
  | false =>
    refine ⟨?_, ?_, ?_⟩
    · intro e he
      simp [status_main, hci] at he
      simp [he, Effect.isReadOnly]
    · simp [status_main, hci, List.countP_cons, Effect.isHttpGet]
    · simp [status_main, hci]
  | true =>
    cases hw : env.ciOutputs.lookup "WebStackName" with
    | none =>
      refine ⟨?_, ?_, ?_⟩
      · intro e he
        have he2 : e = Effect.describeStacks env.ciStackName := by
          simpa [status_main, hci, hw] using he
        subst he2
        rfl
      · simp [status_main, hci, hw, List.countP_cons, Effect.isHttpGet]
      · simp [status_main, hci, hw]
    | some web =>
      cases hwe : env.webExists with
      | false =>
        refine ⟨?_, ?_, ?_⟩
        · intro e he
          simp [status_main, hci, hw, hwe] at he
          rcases he with rfl | rfl | rfl <;> rfl
        · simp [status_main, hci, hw, hwe, List.countP_cons, Effect.isHttpGet]
        · simp [status_main, hci, hw, hwe]
      | true =>
        cases hd : env.webOutputs.lookup "BalancerDNSName" with
        | none =>
          refine ⟨?_, ?_, ?_⟩
          · intro e he
            simp [status_main, hci, hw, hwe, hd] at he
            rcases he with rfl | rfl | rfl | rfl <;> rfl
          · simp [status_main, hci, hw, hwe, hd, List.countP_cons, Effect.isHttpGet]
          · simp [status_main, hci, hw, hwe, hd]
        | some dns =>
          cases hp : test_web_site env.siteBody with
          | false =>
            refine ⟨?_, ?_, ?_⟩
            · intro e he
              simp [status_main, hci, hw, hwe, hd, hp] at he
              rcases he with rfl | rfl | rfl | rfl | rfl <;> rfl
            · simp [status_main, hci, hw, hwe, hd, hp, List.countP_cons,
                Effect.isHttpGet]
            · simp [status_main, hci, hw, hwe, hd, hp]
          | true =>
            refine ⟨?_, ?_, ?_⟩
            · intro e he
              simp [status_main, hci, hw, hwe, hd, hp] at he
              rcases he with rfl | rfl | rfl | rfl | rfl <;> rfl
            · simp [status_main, hci, hw, hwe, hd, hp, List.countP_cons,
                Effect.isHttpGet]
            · simp [status_main, hci, hw, hwe, hd, hp]

/-- C5 counterexample: with confirmation `yes`, an existing CI stack whose
outputs name an existing web stack, the terminate script deletes the two
stacks but issues no bucket deletion at all, contradicting the claim that
it also removes the build-artifact storage bucket. -/
theorem C5_terminate_no_bucket_removal_counterexample :
    terminateEnvYes.userInput = "yes" ∧
    (terminate_main terminateEnvYes).1.countP Effect.isStackDelete = 2 ∧
    (terminate_main terminateEnvYes).1.countP Effect.isDeleteBucket = 0 := by
  exact ⟨rfl, by decide, by decide⟩

/-- C5 (amended): when and only when the user enters exactly `yes` does the
script delete anything; on confirmation, when the CI stack exists it
deletes the web stack (when the CI stack's outputs name one that exists)
and then the CI stack, waiting for each deletion to complete; the
build-artifact storage bucket is never removed; on any other input it
exits without deleting anything. -/
theorem C5_terminate_behavior (env : TerminateEnv) :
    (env.userInput ≠ "yes" → terminate_main env = ([], 0)) ∧
    (terminate_main env).1.countP Effect.isDeleteBucket = 0 ∧
    (env.userInput = "yes" → env.ciExists = true →
      ∀ web, env.ciOutputs.lookup "WebStackName" = some web →
        env.webExists = true →
        (terminate_main env).1 =
          [Effect.describeStacks env.ciStackName,
           Effect.describeStacks env.ciStackName,
           Effect.describeStacks web,
           Effect.deleteStack web, Effect.waitDeleteComplete web,
           Effect.deleteStack env.ciStackName,
           Effect.waitDeleteComplete env.ciStackName]) ∧
    (env.userInput = "yes" → env.ciExists = true →
      ∀ web, env.ciOutputs.lookup "WebStackName" = some web →
        env.webExists = false →
        (terminate_main env).1.countP Effect.isStackDelete = 1) ∧
    (env.userInput = "yes" → env.ciExists = true →
      env.ciOutputs.lookup "WebStackName" = none →
      (terminate_main env).1.countP Effect.isStackDelete = 1) ∧
    (env.userInput = "yes" → env.ciExists = false →
      (terminate_main env).1.countP Effect.isStackDelete = 0) := by
  by_cases hy : env.userInput = "yes"
  · cases hci : env.ciExists with
    | false =>
      refine ⟨fun h => absurd hy h, ?_, ?_, ?_, ?_, ?_⟩
      · simp [terminate_main, hy, hci, List.countP_cons, Effect.isDeleteBucket]
      · intro _ h
        simp [hci] at h
      · intro _ h
        simp [hci] at h
      · intro _ h
        simp [hci] at h
      · intro _ _
        simp [terminate_main, hy, hci, List.countP_cons, Effect.isStackDelete]
    | true =>
      cases hw : env.ciOutputs.lookup "WebStackName" with
      | none =>
        refine ⟨fun h => absurd hy h, ?_, ?_, ?_, ?_, ?_⟩
        · simp [terminate_main, terminate_stack, hy, hci, hw, List.countP_cons,
            Effect.isDeleteBucket]
        · intro _ _ web hweb
          simp at hweb
        · intro _ _ web hweb
          simp at hweb
        · intro _ _ _
          simp [terminate_main, terminate_stack, hy, hci, hw, List.countP_cons,
            Effect.isStackDelete]
        · intro _ h
          simp [hci] at h
      | some web =>
        cases hwe : env.webExists with
        | false =>
          refine ⟨fun h => absurd hy h, ?_, ?_, ?_, ?_, ?_⟩
          · simp [terminate_main, terminate_stack, hy, hci, hw, hwe,
              List.countP_cons, Effect.isDeleteBucket]
          · intro _ _ web2 _ h
            simp [hwe] at h
          · intro _ _ web2 hweb2 _
            rw [Option.some.injEq] at hweb2
            subst hweb2
            simp [terminate_main, terminate_stack, hy, hci, hw, hwe,
              List.countP_cons, Effect.isStackDelete]
          · intro _ _ h
            simp at h
          · intro _ h
            simp [hci] at h
        | true =>
          refine ⟨fun h => absurd hy h, ?_, ?_, ?_, ?_, ?_⟩
          · simp [terminate_main, terminate_stack, hy, hci, hw, hwe,
              List.countP_cons, Effect.isDeleteBucket]
          · intro _ _ web2 hweb2 _
            rw [Option.some.injEq] at hweb2
            subst hweb2
            simp [terminate_main, terminate_stack, hy, hci, hw, hwe]
          · intro _ _ web2 _ h
            simp [hwe] at h
          · intro _ _ h
            simp at h
          · intro _ h
            simp [hci] at h
  · refine ⟨?_, ?_, ?_, ?_, ?_, ?_⟩
    · intro _
      simp [terminate_main, hy]
    · simp [terminate_main, hy]
    · intro h
      exact absurd h hy
    · intro h
      exact absurd h hy
    · intro h
      exact absurd h hy
    · intro h
      exact absurd h hy

/-- Witness for C5 (amended): on a `no` answer nothing is deleted; on the
concrete `yes` environment the exact deletion sequence — web stack, wait,
CI stack, wait — is issued. -/
theorem C5_terminate_behavior_witness :
    terminate_main ⟨"no", "a4tp-ci", true, [("WebStackName", "a4tp-web")], true⟩ =
      ([], 0) ∧
    (terminate_main terminateEnvYes).1 =
      [Effect.describeStacks "a4tp-ci", Effect.describeStacks "a4tp-ci",
       Effect.describeStacks "a4tp-web",
       Effect.deleteStack "a4tp-web", Effect.waitDeleteComplete "a4tp-web",
       Effect.deleteStack "a4tp-ci", Effect.waitDeleteComplete "a4tp-ci"] := by
  constructor
  · exact (C5_terminate_behavior
      ⟨"no", "a4tp-ci", true, [("WebStackName", "a4tp-web")], true⟩).1 (by decide)
  · exact (C5_terminate_behavior terminateEnvYes).2.2.1 rfl rfl "a4tp-web"
      (by decide) rfl

/-- Witness for C6: a concrete environment where the CI stack exists, its
outputs name an existing web stack, and the probed page contains the
marker; the status script exits 0. -/
theorem C6_status_read_only_exit_codes_witness :
    (status_main ⟨"a4tp-ci", true, [("WebStackName", "a4tp-web")], true,
      [("BalancerDNSName", "lb.example.com")],
      some "<html>Automation for the People</html>"⟩).2 = 0 := by
  exact (C6_status_read_only_exit_codes ⟨"a4tp-ci", true,
      [("WebStackName", "a4tp-web")], true,
      [("BalancerDNSName", "lb.example.com")],
      some "<html>Automation for the People</html>"⟩).2.2.mpr
    ⟨rfl, "a4tp-web", by decide, rfl, "lb.example.com", by decide, by decide⟩

/-- Witness for C9: a concrete world in which an event without the
`CodePipeline.job` key makes both handlers crash with no calls issued. -/
theorem C9_missing_job_key_crashes_witness :
    lambda_handler none ⟨some "CREATE_COMPLETE", ApiResult.ok⟩ =
      ([], HandlerResult.crashed) ∧
    lambdabuild_handler none = ([], HandlerResult.crashed) :=
  C9_missing_job_key_crashes ⟨some "CREATE_COMPLETE", ApiResult.ok⟩

/-- Witness for C10: with a single failed probe inside the retry loop, the
loop raises the `NameError` and does not reach its timeout exit. -/
theorem C10_retry_loop_name_error_witness :
    site_retry_loop [false] 0 = StepResult.raised nameErrorMsg ∧
    site_retry_loop [false] 0 ≠ StepResult.systemExit 1 :=
  ⟨C10_retry_loop_name_error.1 [], C10_retry_loop_name_error.2 [false]⟩

end CiDemo
